import Mathlib

/-!
Shallow embedding of the statement-extraction scripts of the
CapitalProcessing/Parse-Statement-PDF repository, together with theorems
settling the frozen claims about them.

Conventions of the embedding:
* Python strings are `List Char`; page texts coming from the PDF library are
  `Option (List Char)` (`None` when a page yields no text).
* Python `float` monetary amounts are represented exactly as integer cents
  (`ℤ`): every numeral captured by the scripts' patterns has the shape
  `[\d,]+\.\d\d`, so `float(s.replace(',', ''))` is exactly
  `intpart * 100 + fracpart` cents.  The sanity bound `value < 10000000000`
  (dollars) becomes `cents < 1000000000000`.
* A Python expression that can raise is embedded in `Except PyErr`.
-/

set_option autoImplicit false

/-- Python runtime errors that the embedded code can actually raise. -/
inductive PyErr where
  | indexError
deriving DecidableEq

instance {ε α : Type} [DecidableEq ε] [DecidableEq α] : DecidableEq (Except ε α) := fun
  | .ok a, .ok b =>
    if h : a = b then .isTrue (by rw [h]) else .isFalse (fun he => by cases he; exact h rfl)
  | .ok _, .error _ => .isFalse (fun he => by cases he)
  | .error _, .ok _ => .isFalse (fun he => by cases he)
  | .error a, .error b =>
    if h : a = b then .isTrue (by rw [h]) else .isFalse (fun he => by cases he; exact h rfl)

/-- ASCII whitespace, as matched by Python's `str.split()`, `str.strip()` and `\s`. -/
def pyIsSpace (c : Char) : Bool :=
  c = ' ' || c = '\t' || c = '\n' || c = '\x0d' || c = '\x0b' || c = '\x0c'

/-- ASCII digit, as matched by `\d` on the ASCII inputs these scripts handle. -/
def pyIsDigit (c : Char) : Bool := '0' ≤ c && c ≤ '9'

/-- ASCII letter. -/
def pyIsAlpha (c : Char) : Bool := ('A' ≤ c && c ≤ 'Z') || ('a' ≤ c && c ≤ 'z')

/-- Regex word character (`\w` / the characters relevant to `\b`). -/
def pyIsWordChar (c : Char) : Bool := pyIsAlpha c || pyIsDigit c || c = '_'

/-- ASCII lower-casing, as `str.lower()` does on these inputs. -/
def pyToLower (c : Char) : Char :=
  if 'A' ≤ c ∧ c ≤ 'Z' then Char.ofNat (c.toNat + 32) else c

/-- ASCII upper-casing, as `str.upper()` does on these inputs. -/
def pyToUpper (c : Char) : Char :=
  if 'a' ≤ c ∧ c ≤ 'z' then Char.ofNat (c.toNat - 32) else c

/-- `filename.replace('.pdf', '')`: delete every (non-overlapping, left-to-right)
occurrence of `.pdf`. -/
def stripPdfAll : List Char → List Char
  | '.' :: 'p' :: 'd' :: 'f' :: t => stripPdfAll t
  | c :: t => c :: stripPdfAll t
  | [] => []

/-- `s.rsplit(sep, 1)` when `sep` occurs: split at the LAST occurrence of `sep`,
returning `(before, after)`; `none` when `sep` does not occur (which is exactly
the `if sep in s` test the scripts perform first). -/
def rsplitOnce (sep : List Char) : List Char → Option (List Char × List Char)
  | [] => none
  | c :: t =>
    match rsplitOnce sep t with
    | some (b, a) => some (c :: b, a)
    | none =>
      if sep.isPrefixOf (c :: t) then some ([], (c :: t).drop sep.length) else none

/-- `s.strip()`. -/
def pyStrip (s : List Char) : List Char :=
  ((s.dropWhile pyIsSpace).reverse.dropWhile pyIsSpace).reverse

/-- Helper for `str.split()`: accumulates the current word (reversed). -/
def pySplitAux : List Char → List Char → List (List Char)
  | [], acc => if acc.isEmpty then [] else [acc.reverse]
  | c :: t, acc =>
    if pyIsSpace c then
      if acc.isEmpty then pySplitAux t [] else acc.reverse :: pySplitAux t []
    else pySplitAux t (c :: acc)

/-- `s.split()`: split on whitespace runs, dropping empty tokens. -/
def pySplitWs (s : List Char) : List (List Char) := pySplitAux s []

/-- `needle in haystack` (case-sensitive substring test). -/
def hasSubstr (needle : List Char) : List Char → Bool
  | [] => needle.isEmpty
  | c :: t => needle.isPrefixOf (c :: t) || hasSubstr needle t

/-- Consume a case-sensitive literal, returning the rest of the input. -/
def dropLit : List Char → List Char → Option (List Char)
  | [], s => some s
  | _ :: _, [] => none
  | l :: lt, c :: t => if c = l then dropLit lt t else none

/-- Consume a case-insensitive literal (given lower-cased), returning the rest. -/
def dropLitCI : List Char → List Char → Option (List Char)
  | [], s => some s
  | _ :: _, [] => none
  | l :: lt, c :: t => if pyToLower c = l then dropLitCI lt t else none

/-- `re.search`: try the matcher at each successive start position, returning
the first success (Python's leftmost-match rule). -/
def searchFirst {α : Type} (m : List Char → Option α) : List Char → Option α
  | [] => m []
  | c :: t =>
    match m (c :: t) with
    | some r => some r
    | none => searchFirst m t

example : stripPdfAll "a.pdf - b.pdf".data = "a - b".data := by decide
example : rsplitOnce " - ".data "Foo - Bar - Baz".data = some ("Foo - Bar".data, "Baz".data) := by decide
example : pySplitWs "  Kamal  Alhajli WH ".data = ["Kamal".data, "Alhajli".data, "WH".data] := by decide
example : hasSubstr "BOKF".data "xx BOKFINANCIAL yy".data = true := by decide

/-!
### Account-number patterns

The three account searches in the scripts use the regexes
`(\d+[-]\d+\.\d+)`, `(\d+[-]\d+(?:\.\d+)?)` and `(\d+[-\.]\d+(?:\.\d+)?)`.
On these patterns Python's greedy backtracking search coincides with
maximal-munch matching (each `\d+` / `[\d,]+` run is followed by a character
outside its class), which is what `matchNumCore` implements at one start
position; `searchFirst` supplies the leftmost-start rule.
-/

/-- Match `\d+<sep>\d+\.\d+` (when `needDot`) or `\d+<sep>\d+(?:\.\d+)?`
(otherwise) at the start of the input, returning the captured group. -/
def matchNumCore (seps : List Char) (needDot : Bool) : List Char → Option (List Char)
  | [] => none
  | c :: t =>
    if pyIsDigit c then
      let d1 := t.takeWhile pyIsDigit
      match t.dropWhile pyIsDigit with
      | s1 :: r2 =>
        if seps.contains s1 then
          match r2 with
          | c2 :: t2 =>
            if pyIsDigit c2 then
              let d2 := t2.takeWhile pyIsDigit
              match t2.dropWhile pyIsDigit with
              | '.' :: c3 :: t3 =>
                if pyIsDigit c3 then
                  some (c :: d1 ++ s1 :: c2 :: d2 ++ '.' :: c3 :: t3.takeWhile pyIsDigit)
                else if needDot then none else some (c :: d1 ++ s1 :: c2 :: d2)
              | _ => if needDot then none else some (c :: d1 ++ s1 :: c2 :: d2)
            else none
          | [] => none
        else none
      | [] => none
    else none

/-- `re.search(r'(\d+[-]\d+\.\d+)', s)` — the BOK-specific account pattern. -/
def searchNumA (s : List Char) : Option (List Char) := searchFirst (matchNumCore ['-'] true) s

/-- `re.search(r'(\d+[-]\d+(?:\.\d+)?)', s)` — the general account pattern of
`extract_bok_statements.extract_beneficiary_and_account`. -/
def searchNumB (s : List Char) : Option (List Char) := searchFirst (matchNumCore ['-'] false) s

/-- `re.search(r'(\d+[-\.]\d+(?:\.\d+)?)', s)` — the general account pattern of
the final combined script (dash or dot separator). -/
def searchNumB2 (s : List Char) : Option (List Char) :=
  searchFirst (matchNumCore ['-', '.'] false) s

example : searchNumA "1150-0007374.1".data = some "1150-0007374.1".data := by decide
example : searchNumA "5-6 12-34.5".data = some "12-34.5".data := by decide
example : searchNumB "foo 12-34 x".data = some "12-34".data := by decide
example : searchNumA "3719-3369".data = none := by decide

/-!
### Monetary-amount patterns
-/

/-- Digits of a captured numeral to a natural number. -/
def digitsToNat (s : List Char) : Nat :=
  s.foldl (fun acc c => 10 * acc + (c.toNat - '0'.toNat)) 0

/-- `float(group.replace(',', ''))` for a capture of shape `[\d,]+\.\d{2}`,
represented exactly as integer cents. -/
def centsOfCapture (g : List Char) : ℤ :=
  let g' := g.filter (fun c => c ≠ ',')
  let ip := g'.takeWhile pyIsDigit
  let fp := (g'.dropWhile pyIsDigit).drop 1
  (digitsToNat ip * 100 + digitsToNat fp : ℕ)

example : centsOfCapture "45,156.04".data = (4515604 : ℤ) := by decide
example : centsOfCapture ".05".data = (5 : ℤ) := by decide

/-- Match the captured group `([\d,]+\.\d{2})` at the start of the input. -/
def matchAmount (s : List Char) : Option (List Char) :=
  let run := s.takeWhile (fun c => pyIsDigit c || c = ',')
  if run.isEmpty then none
  else
    match s.dropWhile (fun c => pyIsDigit c || c = ',') with
    | '.' :: a :: b :: _ =>
      if pyIsDigit a && pyIsDigit b then some (run ++ '.' :: a :: [b]) else none
    | _ => none

/-- Match `\s*\$\s*([\d,]+\.\d{2})` at the start of the input. -/
def matchDollarAmount (s : List Char) : Option (List Char) :=
  match s.dropWhile pyIsSpace with
  | '$' :: r => matchAmount (r.dropWhile pyIsSpace)
  | _ => none

/-- `Closingvalue\s*\$\s*([\d,]+\.\d{2})` (IGNORECASE) at one start position. -/
def matchClosing1 (s : List Char) : Option (List Char) :=
  match dropLitCI "closingvalue".data s with
  | some r => matchDollarAmount r
  | none => none

/-- `Closing\s*value\s*\$\s*([\d,]+\.\d{2})` (IGNORECASE) at one start position. -/
def matchClosing2 (s : List Char) : Option (List Char) :=
  match dropLitCI "closing".data s with
  | some r1 =>
    match dropLitCI "value".data (r1.dropWhile pyIsSpace) with
    | some r2 => matchDollarAmount r2
    | none => none
  | none => none

example : searchFirst matchClosing1 "xClosingvalue$45,156.04$45,156.04".data
    = some "45,156.04".data := by decide
example : searchFirst matchClosing2 "CLOSING  VALUE $ 1,000.00".data
    = some "1,000.00".data := by decide

/-- `\s+` followed by continuing input: require at least one whitespace
character, then consume the whole run. -/
def dropWs1 : List Char → Option (List Char)
  | c :: t => if pyIsSpace c then some (t.dropWhile pyIsSpace) else none
  | [] => none

/-- `AccruedIncome\s+[\d,]+\.\d{2}\s+Total\s+([\d,]+\.\d{2})`
(IGNORECASE, DOTALL — DOTALL is irrelevant: no bare `.` occurs) at one start
position. -/
def matchBok1 (s : List Char) : Option (List Char) :=
  match dropLitCI "accruedincome".data s with
  | some r1 =>
    match dropWs1 r1 with
    | some r2 =>
      let run := r2.takeWhile (fun c => pyIsDigit c || c = ',')
      if run.isEmpty then none
      else
        match r2.dropWhile (fun c => pyIsDigit c || c = ',') with
        | '.' :: a :: b :: r3 =>
          if pyIsDigit a && pyIsDigit b then
            match dropWs1 r3 with
            | some r4 =>
              match dropLitCI "total".data r4 with
              | some r5 =>
                match dropWs1 r5 with
                | some r6 => matchAmount r6
                | none => none
              | none => none
            | none => none
          else none
        | _ => none
    | none => none
  | none => none

/-- The four negative lookbehinds `(?<!Principal)(?<!Income)(?<!Gain)(?<!Loss)`
(IGNORECASE), checked against the reversed text before the current position. -/
def lookBlocked (pre : List Char) : Bool :=
  ((pre.take 9).map pyToLower == "lapicnirp".data) ||
  ((pre.take 6).map pyToLower == "emocni".data) ||
  ((pre.take 4).map pyToLower == "niag".data) ||
  ((pre.take 4).map pyToLower == "ssol".data)

/-- `(?<!Principal)(?<!Income)(?<!Gain)(?<!Loss)Total\s+([\d,]+\.\d{2})`
(IGNORECASE) at one position, given the reversed preceding text `pre`. -/
def matchBok2 (pre s : List Char) : Option (List Char) :=
  if lookBlocked pre then none
  else
    match dropLitCI "total".data s with
    | some r1 =>
      match dropWs1 r1 with
      | some r2 => matchAmount r2
      | none => none
    | none => none

/-- `re.search` for the lookbehind pattern: walk the text keeping the reversed
prefix so the lookbehinds can inspect it. -/
def searchBok2 : List Char → List Char → Option (List Char)
  | pre, [] => matchBok2 pre []
  | pre, c :: t =>
    match matchBok2 pre (c :: t) with
    | some g => some g
    | none => searchBok2 (c :: pre) t

example : searchFirst matchBok1 "AccruedIncome 1,000.00 Total 705,122.36".data
    = some "705,122.36".data := by decide
example : searchBok2 [] "PrincipalTotal 9.99 then Total 705,122.36".data
    = some "705,122.36".data := by decide
example : searchBok2 [] "Subtotal 5.00".data = some "5.00".data := by decide

/-- `Page\s*<n>\s*of\s*\d+` (case-sensitive) at one start position. -/
def matchPageNof (n : Char) (s : List Char) : Option Unit :=
  match dropLit "Page".data s with
  | some r1 =>
    match r1.dropWhile pyIsSpace with
    | c :: r3 =>
      if c = n then
        match dropLit "of".data (r3.dropWhile pyIsSpace) with
        | some r5 =>
          match r5.dropWhile pyIsSpace with
          | d :: _ => if pyIsDigit d then some () else none
          | [] => none
        | none => none
      else none
    | [] => none
  | none => none

example : (searchFirst (matchPageNof '2') "x Page2of12 y".data).isSome = true := by decide
example : (searchFirst (matchPageNof '2') "Page 2 of 12".data).isSome = true := by decide
example : searchFirst (matchPageNof '2') "Page2ofX".data = none := by decide

/-!
### Data model

`ResultRec` is the dictionary a parser's `parse` returns in
`extract_all_statements_final_Version2.py` (keys Filename, Account Number,
Closing Value, Institution, Status).
-/

/-- The two institution profiles of the combined script. -/
inductive Institution where
  | wfa
  | bok
deriving DecidableEq

/-- One per-document result record. -/
structure ResultRec where
  filename : List Char
  account : Option (List Char)
  value : Option ℤ
  institution : Institution
  status : String
deriving DecidableEq

/-- Python truthiness of an `Optional[str]`: `None` and `''` are falsy. -/
def pyTruthyStr : Option (List Char) → Bool
  | none => false
  | some s => !s.isEmpty

namespace WFAParser

/-- `WFAParser.extract_account_number_from_filename`
(`extract_all_statements_final_Version2.py:20`).  The final
`account_part.split()[0]` raises `IndexError` when the account section is
empty, which the embedding records as `Except.error`. -/
def extract_account_number_from_filename (filename : List Char) :
    Except PyErr (Option (List Char)) :=
  let name_part := stripPdfAll filename
  match rsplitOnce " - ".data name_part with
  | none => .ok none
  | some (_, after) =>
    let account_part := pyStrip after
    match searchNumB2 account_part with
    | some g => .ok (some g)
    | none =>
      match pySplitWs account_part with
      | [] => .error .indexError
      | tok :: _ => .ok (some tok)

/-- `WFAParser.find_snapshot_page`: first page whose (truthy) text matches
`Page\s*1\s*of\s*\d+`. -/
def find_snapshot_page : List (Option (List Char)) → Option (List Char)
  | [] => none
  | none :: ps => find_snapshot_page ps
  | some t :: ps =>
    if !t.isEmpty && (searchFirst (matchPageNof '1') t).isSome then some t
    else find_snapshot_page ps

/-- Second iteration of the pattern loop in `WFAParser.extract_closing_value`
(pattern `Closing\s*value\s*\$\s*([\d,]+\.\d{2})`, guard `value >= 0`). -/
def closingTry2 (t : List Char) : Option ℤ :=
  match searchFirst matchClosing2 t with
  | some g => if 0 ≤ centsOfCapture g then some (centsOfCapture g) else none
  | none => none

/-- `WFAParser.extract_closing_value`: ordered pattern list
`[Closingvalue\s*\$..., Closing\s*value\s*\$...]`, each match validated by
`value >= 0`; no upper bound is applied. -/
def extract_closing_value : Option (List Char) → Option ℤ
  | none => none
  | some t =>
    if t.isEmpty then none
    else
      match searchFirst matchClosing1 t with
      | some g => if 0 ≤ centsOfCapture g then some (centsOfCapture g) else closingTry2 t
      | none => closingTry2 t

/-- `WFAParser.parse`: assemble the result record; the Status cell is
`'✓' if (account_number and closing_value is not None) else '⚠'`. -/
def parse (filename : List Char) (pages : List (Option (List Char))) :
    Except PyErr ResultRec :=
  match extract_account_number_from_filename filename with
  | .error e => .error e
  | .ok account_number =>
    let page_text := find_snapshot_page pages
    let closing_value := extract_closing_value page_text
    .ok { filename := filename
          account := account_number
          value := closing_value
          institution := .wfa
          status := if pyTruthyStr account_number && closing_value.isSome then "✓" else "⚠" }

end WFAParser

namespace BOKFinancialParser

/-- `BOKFinancialParser.extract_account_number_from_filename`
(`extract_all_statements_final_Version2.py:92`): BOK pattern
`(\d+[-]\d+\.\d+)` first, then the general `(\d+[-\.]\d+(?:\.\d+)?)`, then the
first token of the section (`IndexError` when the section is empty). -/
def extract_account_number_from_filename (filename : List Char) :
    Except PyErr (Option (List Char)) :=
  let name_part := stripPdfAll filename
  match rsplitOnce " - ".data name_part with
  | none => .ok none
  | some (_, after) =>
    let account_part := pyStrip after
    match searchNumA account_part with
    | some g => .ok (some g)
    | none =>
      match searchNumB2 account_part with
      | some g => .ok (some g)
      | none =>
        match pySplitWs account_part with
        | [] => .error .indexError
        | tok :: _ => .ok (some tok)

/-- The page condition of `BOKFinancialParser.find_account_overview_page`:
(`Page\s*2\s*of\s*\d+` matches, or `'Page2of' in text`) and
(`'AccountOverview' in text` or `'Account Overview' in text`). -/
def overviewPageCond (t : List Char) : Bool :=
  ((searchFirst (matchPageNof '2') t).isSome || hasSubstr "Page2of".data t) &&
  (hasSubstr "AccountOverview".data t || hasSubstr "Account Overview".data t)

/-- `BOKFinancialParser.find_account_overview_page`: first page, in physical
order, with truthy text satisfying `overviewPageCond`; pages without text are
skipped (`if not text: continue`). -/
def find_account_overview_page : List (Option (List Char)) → Option (List Char)
  | [] => none
  | none :: ps => find_account_overview_page ps
  | some t :: ps =>
    if t.isEmpty then find_account_overview_page ps
    else if overviewPageCond t then some t
    else find_account_overview_page ps

/-- Second iteration of the pattern loop in
`BOKFinancialParser.extract_total_value` (the lookbehind-guarded `Total`
pattern, sanity bound `0 < value < 10000000000` dollars). -/
def totalTry2 (t : List Char) : Option ℤ :=
  match searchBok2 [] t with
  | some g =>
    if 0 < centsOfCapture g ∧ centsOfCapture g < 1000000000000 then some (centsOfCapture g)
    else none
  | none => none

/-- `BOKFinancialParser.extract_total_value`: `AccruedIncome ... Total` pattern
first, then the lookbehind-guarded `Total` pattern; each match validated by
`0 < value < 10000000000` (dollars, here cents). -/
def extract_total_value : Option (List Char) → Option ℤ
  | none => none
  | some t =>
    if t.isEmpty then none
    else
      match searchFirst matchBok1 t with
      | some g =>
        if 0 < centsOfCapture g ∧ centsOfCapture g < 1000000000000 then some (centsOfCapture g)
        else totalTry2 t
      | none => totalTry2 t

/-- `BOKFinancialParser.parse` of the final combined script. -/
def parse (filename : List Char) (pages : List (Option (List Char))) :
    Except PyErr ResultRec :=
  match extract_account_number_from_filename filename with
  | .error e => .error e
  | .ok account_number =>
    let page_text := find_account_overview_page pages
    let total_value := extract_total_value page_text
    .ok { filename := filename
          account := account_number
          value := total_value
          institution := .bok
          status := if pyTruthyStr account_number && total_value.isSome then "✓" else "⚠" }

end BOKFinancialParser

namespace CombinedStatementParser

/-- The three BOK signature substrings of `is_bok_financial`. -/
def hasBokSig (t : List Char) : Bool :=
  hasSubstr "BOKFINANCIAL".data t || hasSubstr "BOK FINANCIAL".data t ||
  hasSubstr "BOKF".data t

/-- `pages_to_check = [0, 2, 3] if len(pdf_reader.pages) > 3 else range(len(...))`. -/
def pagesToCheck (pages : List (Option (List Char))) : List Nat :=
  if 3 < pages.length then [0, 2, 3] else List.range pages.length

/-- The per-index test of the `is_bok_financial` loop:
`text and ('BOKFINANCIAL' in text or 'BOK FINANCIAL' in text or 'BOKF' in text)`. -/
def sigAt (pages : List (Option (List Char))) (i : Nat) : Bool :=
  match pages[i]? with
  | some (some t) => !t.isEmpty && hasBokSig t
  | _ => false

/-- `CombinedStatementParser.is_bok_financial`. -/
def is_bok_financial (pages : List (Option (List Char))) : Bool :=
  (pagesToCheck pages).any (sigAt pages)

/-- `CombinedStatementParser.selectParser`: BOK if the signature check fires,
else the (default) WFA parser. -/
def selectParser (pages : List (Option (List Char))) : Institution :=
  if is_bok_financial pages then .bok else .wfa

/-- pandas `Series.sum()` with its default `skipna=True`, as used on the
`Closing Value` column in `save_to_excel`: absent values are skipped. -/
def pandasSumSkipNA : List (Option ℤ) → ℤ
  | [] => 0
  | none :: t => pandasSumSkipNA t
  | some v :: t => v + pandasSumSkipNA t

/-- The grand total of `CombinedStatementParser.save_to_excel`:
`df['Closing Value'].sum()`. -/
def grandTotal (results : List ResultRec) : ℤ :=
  pandasSumSkipNA (results.map (·.value))

end CombinedStatementParser

/-!
### `extract_bok_statements.py` filename parser
-/

/-- One alternative of `\b(WH|Warehouse|Whse|Whouse|Warehse)\b` under
`re.match`: the (lower-cased) literal is a prefix of the word and is followed
by a word boundary (end of word, or a non-word character). -/
def warehouseAlt (lit w : List Char) : Bool :=
  let wl := w.map pyToLower
  lit.isPrefixOf wl &&
    (match (wl.drop lit.length) with
     | [] => true
     | c :: _ => !pyIsWordChar c)

/-- `re.match(warehouse_pattern, word, re.IGNORECASE)` is truthy. -/
def isWarehouseWord (w : List Char) : Bool :=
  warehouseAlt "wh".data w || warehouseAlt "warehouse".data w ||
  warehouseAlt "whse".data w || warehouseAlt "whouse".data w ||
  warehouseAlt "warehse".data w

/-- `re.match(r'^[A-Z]{2,4}$', word, re.IGNORECASE)` is truthy: the word is
2–4 ASCII letters. -/
def isCodeWord (w : List Char) : Bool :=
  2 ≤ w.length && w.length ≤ 4 && w.all pyIsAlpha

/-- The reverse scan of `extract_beneficiary_and_account`: skip warehouse
markers, return the first beneficiary-code word upper-cased.  The argument is
the already-reversed word list. -/
def findBeneficiary : List (List Char) → Option (List Char)
  | [] => none
  | w :: ws =>
    if isWarehouseWord w then findBeneficiary ws
    else if isCodeWord w then some (w.map pyToUpper)
    else findBeneficiary ws

/-- The account cascade of `extract_beneficiary_and_account`
(`extract_bok_statements.py:57`): `(\d+[-]\d+\.\d+)` first, then
`(\d+[-]\d+(?:\.\d+)?)`, then `account_section.split()[0]` (which raises
`IndexError` on an empty section). -/
def accountFromSection (sec : List Char) : Except PyErr (List Char) :=
  match searchNumA sec with
  | some g => .ok g
  | none =>
    match searchNumB sec with
    | some g => .ok g
    | none =>
      match pySplitWs sec with
      | [] => .error .indexError
      | tok :: _ => .ok tok

/-- `extract_bok_statements.extract_beneficiary_and_account`. -/
def extract_beneficiary_and_account (filename : List Char) :
    Except PyErr (Option (List Char) × Option (List Char)) :=
  let name_part := stripPdfAll filename
  match rsplitOnce " - ".data name_part with
  | none => .ok (none, none)
  | some (before, after) =>
    let name_section := pyStrip before
    let account_section := pyStrip after
    let beneficiary := findBeneficiary (pySplitWs name_section).reverse
    match accountFromSection account_section with
    | .ok acc => .ok (beneficiary, some acc)
    | .error e => .error e

example : extract_beneficiary_and_account "Kamal Alhajli WH BIC - 3719-3369.pdf".data
    = .ok (some "BIC".data, some "3719-3369".data) := by decide
example : WFAParser.extract_account_number_from_filename "Foo - .pdf".data
    = .error .indexError := by decide
example : WFAParser.extract_closing_value (some "Closingvalue$45,156.04$45,156.04".data)
    = some 4515604 := by decide

/-!
### Helper lemmas
-/

/-- Any property of the matcher's results transfers to `searchFirst`. -/
theorem searchFirst_pres {α : Type} (P : α → Prop) (m : List Char → Option α)
    (hm : ∀ s r, m s = some r → P r) :
    ∀ s r, searchFirst m s = some r → P r
  | [], r, h => hm [] r h
  | c :: t, r, h => by
    simp only [searchFirst] at h
    cases hmc : m (c :: t) with
    | some x =>
      rw [hmc] at h
      injection h with h
      exact h ▸ hm (c :: t) x hmc
    | none =>
      rw [hmc] at h
      exact searchFirst_pres P m hm t r h

/-- Every group captured by the account patterns is non-empty. -/
theorem matchNumCore_ne_nil (seps : List Char) (nd : Bool) :
    ∀ s g, matchNumCore seps nd s = some g → g ≠ [] := by
  intro s g h
  match s with
  | [] => simp [matchNumCore] at h
  | c :: t =>
    simp only [matchNumCore] at h
    repeat' split at h
    all_goals try exact Option.noConfusion h
    all_goals injection h with h
    all_goals subst h
    all_goals simp

/-- Every token produced by `str.split()` is non-empty. -/
theorem pySplitAux_ne_nil :
    ∀ (s acc w : List Char), w ∈ pySplitAux s acc → w ≠ [] := by
  intro s
  induction s with
  | nil =>
    intro acc w h
    simp only [pySplitAux] at h
    split at h
    · simp at h
    · next hacc =>
      simp only [List.mem_singleton] at h
      subst h
      simpa [List.isEmpty_iff] using hacc
  | cons c t ih =>
    intro acc w h
    simp only [pySplitAux] at h
    split at h
    · split at h
      · exact ih [] w h
      · next hacc =>
        rcases List.mem_cons.mp h with h | h
        · subst h
          simpa [List.isEmpty_iff] using hacc
        · exact ih [] w h
    · exact ih (c :: acc) w h

theorem searchNumA_ne_nil (s g : List Char) (h : searchNumA s = some g) : g ≠ [] :=
  searchFirst_pres (· ≠ []) _ (matchNumCore_ne_nil ['-'] true) s g h

theorem searchNumB2_ne_nil (s g : List Char) (h : searchNumB2 s = some g) : g ≠ [] :=
  searchFirst_pres (· ≠ []) _ (matchNumCore_ne_nil ['-', '.'] false) s g h

/-- The WFA filename parser never produces `Some('')`: Python truthiness of its
result coincides with presence. -/
theorem wfa_account_truthy (fn : List Char) (o : Option (List Char))
    (h : WFAParser.extract_account_number_from_filename fn = .ok o) :
    pyTruthyStr o = o.isSome := by
  simp only [WFAParser.extract_account_number_from_filename] at h
  split at h
  · cases h; rfl
  · split at h
    · next g hg =>
      cases h
      simpa [pyTruthyStr, List.isEmpty_iff] using searchNumB2_ne_nil _ g hg
    · split at h
      · cases h
      · next tok rest hsplit =>
        cases h
        have htok : tok ≠ [] :=
          pySplitAux_ne_nil _ [] tok (by rw [pySplitWs] at hsplit; rw [hsplit]; exact List.mem_cons_self _ _)
        simpa [pyTruthyStr, List.isEmpty_iff] using htok

/-- Same for the BOK filename parser of the combined script. -/
theorem bok_account_truthy (fn : List Char) (o : Option (List Char))
    (h : BOKFinancialParser.extract_account_number_from_filename fn = .ok o) :
    pyTruthyStr o = o.isSome := by
  simp only [BOKFinancialParser.extract_account_number_from_filename] at h
  split at h
  · cases h; rfl
  · split at h
    · next g hg =>
      cases h
      simpa [pyTruthyStr, List.isEmpty_iff] using searchNumA_ne_nil _ g hg
    · split at h
      · next g hg =>
        cases h
        simpa [pyTruthyStr, List.isEmpty_iff] using searchNumB2_ne_nil _ g hg
      · split at h
        · cases h
        · next tok rest hsplit =>
          cases h
          have htok : tok ≠ [] :=
            pySplitAux_ne_nil _ [] tok (by rw [pySplitWs] at hsplit; rw [hsplit]; exact List.mem_cons_self _ _)
          simpa [pyTruthyStr, List.isEmpty_iff] using htok

/-- Every value the WFA closing-value extractor returns passed its `value >= 0`
guard. -/
theorem wfa_closing_nonneg (t : Option (List Char)) (v : ℤ)
    (h : WFAParser.extract_closing_value t = some v) : 0 ≤ v := by
  have try2 : ∀ s w, WFAParser.closingTry2 s = some w → 0 ≤ w := by
    intro s w hw
    simp only [WFAParser.closingTry2] at hw
    repeat' split at hw
    all_goals first
      | exact Option.noConfusion hw
      | (injection hw with hw; subst hw; assumption)
  match t with
  | none => exact Option.noConfusion h
  | some s =>
    simp only [WFAParser.extract_closing_value] at h
    repeat' split at h
    all_goals first
      | exact Option.noConfusion h
      | exact try2 s v h
      | (injection h with h; subst h; assumption)

/-- Every value the BOK total-value extractor returns passed its
`0 < value < 10000000000` guard (in cents: `0 < v < 10^12`). -/
theorem bok_total_bounds (t : Option (List Char)) (v : ℤ)
    (h : BOKFinancialParser.extract_total_value t = some v) :
    0 < v ∧ v < 1000000000000 := by
  have try2 : ∀ s w, BOKFinancialParser.totalTry2 s = some w → 0 < w ∧ w < 1000000000000 := by
    intro s w hw
    simp only [BOKFinancialParser.totalTry2] at hw
    repeat' split at hw
    all_goals first
      | exact Option.noConfusion hw
      | (injection hw with hw; subst hw; assumption)
  match t with
  | none => exact Option.noConfusion h
  | some s =>
    simp only [BOKFinancialParser.extract_total_value] at h
    repeat' split at h
    all_goals first
      | exact Option.noConfusion h
      | exact try2 s v h
      | (injection h with h; subst h; assumption)

/-- The reverse-scan loop of `extract_beneficiary_and_account` is the first
word that is not a warehouse marker and is a 2–4 letter code, upper-cased. -/
theorem findBeneficiary_eq_find (ws : List (List Char)) :
    findBeneficiary ws
      = (ws.find? fun w => !isWarehouseWord w && isCodeWord w).map (List.map pyToUpper) := by
  induction ws with
  | nil => rfl
  | cons w ws ih =>
    by_cases hw : isWarehouseWord w
    · simp [findBeneficiary, hw, List.find?_cons, ih]
    · by_cases hc : isCodeWord w
      · simp [findBeneficiary, hw, hc, List.find?_cons]
      · simp [findBeneficiary, hw, hc, List.find?_cons, ih]

/-- The BOK page-locator loop is `find?` of its page condition over the pages
that do have text. -/
theorem find_account_overview_page_eq_find (pages : List (Option (List Char))) :
    BOKFinancialParser.find_account_overview_page pages
      = (pages.filterMap id).find? BOKFinancialParser.overviewPageCond := by
  induction pages with
  | nil => rfl
  | cons p ps ih =>
    match p with
    | none => simpa [BOKFinancialParser.find_account_overview_page] using ih
    | some t =>
      by_cases he : t.isEmpty
      · have ht : t = [] := List.isEmpty_iff.mp he
        subst ht
        have hc : BOKFinancialParser.overviewPageCond [] = false := by decide
        simpa [BOKFinancialParser.find_account_overview_page, List.find?_cons, hc] using ih
      · by_cases hc : BOKFinancialParser.overviewPageCond t
        · simp [BOKFinancialParser.find_account_overview_page, he, hc, List.find?_cons]
        · simp [BOKFinancialParser.find_account_overview_page, he, hc, List.find?_cons, ih]

/-- pandas' skip-NaN sum is the sum of the present values. -/
theorem pandasSumSkipNA_eq (xs : List (Option ℤ)) :
    CombinedStatementParser.pandasSumSkipNA xs = (xs.filterMap id).sum := by
  induction xs with
  | nil => rfl
  | cons x t ih =>
    match x with
    | none => simpa [CombinedStatementParser.pandasSumSkipNA] using ih
    | some v => simp [CombinedStatementParser.pandasSumSkipNA, ih]

/-- The present values are exactly the records not counted as absent. -/
theorem filterMap_length_add_none_count (xs : List (Option ℤ)) :
    (xs.filterMap id).length + xs.countP (fun o => o.isNone) = xs.length := by
  induction xs with
  | nil => rfl
  | cons x t ih =>
    match x with
    | none => simp [List.countP_cons, ih.symm]; omega
    | some v => simp [List.countP_cons, ih.symm]; omega

/-!
### Claims
-/

/-- C1: the claim says the per-document process step always returns one
result record without raising, even for a filename whose `' - '` separator is
followed only by whitespace.  The code violates this: on such a filename
`account_part.split()[0]` indexes an empty list and raises `IndexError`,
aborting the document (and, since `process_all_pdfs` has no handler, the
batch).  This theorem evaluates the embedded code at the failing input. -/
theorem claim_C1_empty_account_section_raises :
    WFAParser.parse "Foo - .pdf".data [] = .error .indexError
    ∧ BOKFinancialParser.parse "Foo - .pdf".data [] = .error .indexError
    ∧ extract_beneficiary_and_account "Foo - .pdf".data = .error .indexError :=
  ⟨by decide, by decide, by decide⟩

/-- C5: the account-section cascade tries `(\d+[-]\d+\.\d+)`, then
`(\d+[-]\d+(?:\.\d+)?)`, then the first whitespace token, first success wins:
on the spec's example filename it yields `1150-0007374.1` (and `BIC`); on
`"5-6 12-34.5"` pattern (a) wins even though pattern (b) would match the
earlier `5-6`; on `"foo 12-34"` pattern (b) wins over the token fallback
(`foo`); on `"alpha beta"` the token fallback fires. -/
theorem claim_C5_account_pattern_order :
    extract_beneficiary_and_account "First Coverage Re BIC - 1150-0007374.1.pdf".data
        = .ok (some "BIC".data, some "1150-0007374.1".data)
    ∧ accountFromSection "5-6 12-34.5".data = .ok "12-34.5".data
    ∧ searchNumB "5-6 12-34.5".data = some "5-6".data
    ∧ accountFromSection "foo 12-34".data = .ok "12-34".data
    ∧ (pySplitWs "foo 12-34".data).head? = some "foo".data
    ∧ accountFromSection "alpha beta".data = .ok "alpha".data :=
  ⟨by decide, by decide, by decide, by decide, by decide, by decide⟩

/-- C6: the beneficiary scan over the (reversed) name-section words returns
the first word that is not a warehouse marker and is a 2–4 letter alphabetic
code, upper-cased, and is absent when no such word exists; on
`"Kamal Alhajli WH BIC - 3719-3369.pdf"` the `WH` marker is skipped and the
result is `BIC` with account `3719-3369`. -/
theorem claim_C6_beneficiary_reverse_scan :
    (∀ ws : List (List Char),
      findBeneficiary ws
        = (ws.find? fun w => !isWarehouseWord w && isCodeWord w).map (List.map pyToUpper))
    ∧ extract_beneficiary_and_account "Kamal Alhajli WH BIC - 3719-3369.pdf".data
        = .ok (some "BIC".data, some "3719-3369".data)
    ∧ extract_beneficiary_and_account "Johnson - 12-34.pdf".data
        = .ok (none, some "12-34".data) :=
  ⟨findBeneficiary_eq_find, by decide, by decide⟩

/-- C7 counterexample: the claim requires every returned page to match
`Page 2 of <N>` (whitespace possibly absent, but with a page count `<N>`).
The code's `'Page2of' in text` branch needs no page count: on a single page
whose text is `"Page2ofX Account Overview"` the locator returns the page even
though the `Page\s*2\s*of\s*\d+` pattern matches nowhere in it. -/
theorem claim_C7_counterexample :
    BOKFinancialParser.find_account_overview_page [some "Page2ofX Account Overview".data]
        = some "Page2ofX Account Overview".data
    ∧ searchFirst (matchPageNof '2') "Page2ofX Account Overview".data = none :=
  ⟨by decide, by decide⟩

/-- C7 amended: the locator returns the first page, in physical order, whose
text either matches `Page\s*2\s*of\s*\d+` or contains the literal `Page2of`
(no page count required in that branch), and contains an `AccountOverview` /
`Account Overview` marker; pages without text are skipped, and if no page
satisfies the condition the result is absent (`find?` returns `none`). -/
theorem claim_C7_amended_locator (pages : List (Option (List Char))) :
    BOKFinancialParser.find_account_overview_page pages
      = (pages.filterMap id).find? BOKFinancialParser.overviewPageCond :=
  find_account_overview_page_eq_find pages

/-- C8: on the compressed, duplicated-figure page text
`"Closingvalue$45,156.04$45,156.04"` the WFA extractor returns exactly
$45,156.04 (4515604 cents): the first matched numeral, thousands separator
stripped, never doubled or concatenated. -/
theorem claim_C8_compressed_label_value :
    WFAParser.extract_closing_value (some "Closingvalue$45,156.04$45,156.04".data)
      = some 4515604 := by decide

/-- C9: the grand total of `save_to_excel` equals the sum of exactly the
present closing values; the summed set has `N − M` elements when `M` of the
`N` records have an absent value, so absent values contribute nothing and are
not included as zero entries. -/
theorem claim_C9_grand_total (results : List ResultRec) :
    CombinedStatementParser.grandTotal results = (results.filterMap (·.value)).sum
    ∧ (results.filterMap (·.value)).length
        + results.countP (fun r => r.value.isNone) = results.length := by
  constructor
  · rw [CombinedStatementParser.grandTotal, pandasSumSkipNA_eq]
    simp [List.filterMap_map, Function.comp]
  · have h := filterMap_length_add_none_count (results.map (·.value))
    simpa [List.filterMap_map, List.countP_map, Function.comp] using h

/-- C2: for every result record a parser's `parse` actually produces, the
status is `"✓"` (complete) iff both the account identifier and the closing
value are present — for both parsers, over all four presence combinations.
(The Python truthiness in `'✓' if (account_number and closing_value is not
None) else '⚠'` coincides with presence because the filename parser never
returns an empty-string account.) -/
theorem claim_C2_status_iff_presence (fn : List Char)
    (pages : List (Option (List Char))) (r : ResultRec) :
    (WFAParser.parse fn pages = .ok r →
      (r.status = "✓" ↔ (r.account.isSome ∧ r.value.isSome)))
    ∧ (BOKFinancialParser.parse fn pages = .ok r →
      (r.status = "✓" ↔ (r.account.isSome ∧ r.value.isSome))) := by
  constructor
  · intro h
    cases hacc : WFAParser.extract_account_number_from_filename fn with
    | error e =>
      simp only [WFAParser.parse, hacc] at h
      exact Except.noConfusion h
    | ok acct =>
      simp only [WFAParser.parse, hacc, Except.ok.injEq] at h
      subst h
      have ht := wfa_account_truthy fn acct hacc
      cases ha : acct.isSome <;>
        cases hv : (WFAParser.extract_closing_value (WFAParser.find_snapshot_page pages)).isSome <;>
          simp_all [pyTruthyStr]
  · intro h
    cases hacc : BOKFinancialParser.extract_account_number_from_filename fn with
    | error e =>
      simp only [BOKFinancialParser.parse, hacc] at h
      exact Except.noConfusion h
    | ok acct =>
      simp only [BOKFinancialParser.parse, hacc, Except.ok.injEq] at h
      subst h
      have ht := bok_account_truthy fn acct hacc
      cases ha : acct.isSome <;>
        cases hv : (BOKFinancialParser.extract_total_value
            (BOKFinancialParser.find_account_overview_page pages)).isSome <;>
          simp_all [pyTruthyStr]

/-- The record `WFAParser.parse` produces for `"A - 12-34.pdf"` with no pages. -/
def c2DemoRec : ResultRec :=
  { filename := "A - 12-34.pdf".data
    account := some "12-34".data
    value := none
    institution := .wfa
    status := "⚠" }

/-- Witness for C2 at a concrete parse output. -/
theorem claim_C2_witness :
    c2DemoRec.status = "✓" ↔ (c2DemoRec.account.isSome ∧ c2DemoRec.value.isSome) :=
  (claim_C2_status_iff_presence "A - 12-34.pdf".data [] c2DemoRec).1 (by decide)

/-- C3 counterexample: the claim says each institution's extractor discards
matches at or above an institution-specific plausibility ceiling.  The WFA
extractor applies no upper bound at all: on
`"Closingvalue$99,999,999,999.99"` it returns $99,999,999,999.99
(9999999999999 cents), at or above the only ceiling appearing in the program
($10^10), while the BOK extractor discards the same amount. -/
theorem claim_C3_counterexample :
    WFAParser.extract_closing_value (some "Closingvalue$99,999,999,999.99".data)
        = some 9999999999999
    ∧ (1000000000000 : ℤ) ≤ 9999999999999
    ∧ BOKFinancialParser.extract_total_value (some "Total 99,999,999,999.99".data) = none :=
  ⟨by decide, by decide, by decide⟩

/-- C3 amended: every value either extractor returns is ≥ 0 (so a matched
`-12.50` is never returned); values returned by the BOK extractor are
moreover strictly positive and below the $10^10 ceiling (10^12 cents), with
out-of-range matches discarded, never clamped; the WFA extractor applies no
upper ceiling. -/
theorem claim_C3_amended_bounds (t : Option (List Char)) (v : ℤ)
    (h : WFAParser.extract_closing_value t = some v
      ∨ BOKFinancialParser.extract_total_value t = some v) :
    0 ≤ v ∧ (BOKFinancialParser.extract_total_value t = some v →
      0 < v ∧ v < 1000000000000) := by
  refine ⟨?_, fun hb => bok_total_bounds t v hb⟩
  rcases h with h | h
  · exact wfa_closing_nonneg t v h
  · exact le_of_lt (bok_total_bounds t v h).1

/-- Witness for C3 (amended) at a concrete BOK page text. -/
theorem claim_C3_witness :
    (0 : ℤ) ≤ 70512236
    ∧ (BOKFinancialParser.extract_total_value (some "Total 705,122.36".data)
          = some 70512236 → (0 : ℤ) < 70512236 ∧ (70512236 : ℤ) < 1000000000000) :=
  claim_C3_amended_bounds (some "Total 705,122.36".data) 70512236 (Or.inr (by decide))

/-- C4: if any checked page carries a BOK signature the classifier commits to
the BOK profile (regardless of anything else in the document), and if no page
at all carries a BOK signature — including documents with no extractable text
— it returns the default WFA profile; the embedding is total, so no exception
is possible. -/
theorem claim_C4_classifier_order (pages : List (Option (List Char))) :
    ((∃ i ∈ CombinedStatementParser.pagesToCheck pages, ∃ t,
        pages[i]? = some (some t) ∧ CombinedStatementParser.hasBokSig t = true) →
      CombinedStatementParser.selectParser pages = .bok)
    ∧ ((∀ (i : Nat) (t : List Char), pages[i]? = some (some t) →
        CombinedStatementParser.hasBokSig t = false) →
      CombinedStatementParser.selectParser pages = .wfa) := by
  constructor
  · rintro ⟨i, hi, t, hget, hsig⟩
    have htne : t.isEmpty = false := by
      cases t with
      | nil => exact absurd hsig (by decide)
      | cons c cs => rfl
    have hsigAt : CombinedStatementParser.sigAt pages i = true := by
      simp [CombinedStatementParser.sigAt, hget, htne, hsig]
    have hb : CombinedStatementParser.is_bok_financial pages = true :=
      List.any_eq_true.mpr ⟨i, hi, hsigAt⟩
    simp [CombinedStatementParser.selectParser, hb]
  · intro hno
    have hb : CombinedStatementParser.is_bok_financial pages = false := by
      cases hany : (CombinedStatementParser.pagesToCheck pages).any
          (CombinedStatementParser.sigAt pages) with
      | false => exact hany
      | true =>
        obtain ⟨i, _, hs⟩ := List.any_eq_true.mp hany
        simp only [CombinedStatementParser.sigAt] at hs
        split at hs
        · next t hget =>
          rw [hno i t hget, Bool.and_false] at hs
          exact absurd hs (by decide)
        · exact absurd hs (by decide)
    simp [CombinedStatementParser.selectParser, hb]

/-- Witness for C4 at a one-page BOK document. -/
theorem claim_C4_witness :
    CombinedStatementParser.selectParser [some "BOKF page".data] = .bok :=
  (claim_C4_classifier_order [some "BOKF page".data]).1
    ⟨0, by decide, "BOKF page".data, by decide, by decide⟩

/-- The per-page signature test, as a function of the page alone. -/
def pageSig : Option (List Char) → Bool
  | some t => !t.isEmpty && CombinedStatementParser.hasBokSig t
  | none => false

theorem sigAt_zero (p : Option (List Char)) (ps : List (Option (List Char))) :
    CombinedStatementParser.sigAt (p :: ps) 0 = pageSig p := by
  cases p <;> simp [CombinedStatementParser.sigAt, pageSig]

theorem sigAt_succ (p : Option (List Char)) (ps : List (Option (List Char))) (i : Nat) :
    CombinedStatementParser.sigAt (p :: ps) (i + 1) = CombinedStatementParser.sigAt ps i := by
  simp [CombinedStatementParser.sigAt, List.getElem?_cons_succ]

/-- Scanning all indices of `range pages.length` is scanning all pages. -/
theorem range_any_sigAt (pages : List (Option (List Char))) :
    (List.range pages.length).any (CombinedStatementParser.sigAt pages)
      = pages.any pageSig := by
  induction pages with
  | nil => rfl
  | cons p ps ih =>
    rw [List.length_cons, List.range_succ_eq_map, List.any_cons, List.any_map, sigAt_zero,
      List.any_cons]
    congr 1
    have hcomp : (CombinedStatementParser.sigAt (p :: ps) ∘ Nat.succ)
        = CombinedStatementParser.sigAt ps := funext fun i => sigAt_succ p ps i
    rw [hcomp, ih]

/-- The four-page demo document: BOK signature only on (unchecked) index 1. -/
def c10Pages : List (Option (List Char)) :=
  [some "WFA cover".data, some "BOK FINANCIAL".data, some "x".data, some "y".data]

/-- C10: for documents with more than three pages the classifier consults
exactly the page indices 0, 2 and 3, so the four-page demo document with the
BOK signature only on index 1 falls back to the WFA profile; for documents
with at most three pages every page is consulted. -/
theorem claim_C10_page_window :
    (∀ pages : List (Option (List Char)),
      (3 < pages.length →
        CombinedStatementParser.is_bok_financial pages
          = (CombinedStatementParser.sigAt pages 0 || CombinedStatementParser.sigAt pages 2
              || CombinedStatementParser.sigAt pages 3))
      ∧ (pages.length ≤ 3 →
        CombinedStatementParser.is_bok_financial pages = pages.any pageSig))
    ∧ CombinedStatementParser.selectParser c10Pages = .wfa := by
  constructor
  · intro pages
    constructor
    · intro hlen
      unfold CombinedStatementParser.is_bok_financial CombinedStatementParser.pagesToCheck
      rw [if_pos hlen]
      simp [List.any_cons, List.any_nil, Bool.or_assoc]
    · intro hlen
      unfold CombinedStatementParser.is_bok_financial CombinedStatementParser.pagesToCheck
      rw [if_neg (by omega)]
      exact range_any_sigAt pages
  · decide

/-- Witness for C10 at the four-page demo document. -/
theorem claim_C10_witness :
    CombinedStatementParser.is_bok_financial c10Pages
      = (CombinedStatementParser.sigAt c10Pages 0 || CombinedStatementParser.sigAt c10Pages 2
          || CombinedStatementParser.sigAt c10Pages 3) :=
  (claim_C10_page_window.1 c10Pages).1 (by decide)
